import Mathlib

/-
Verification of the ATLSApp job-execution subsystem.

Shallow embedding of:
  - app/services/_runner.py        (run_script, ScriptResponse construction)
  - app/services/preflight.py      (run_preflight)
  - app/services/process_locations.py (_load_table_map, _resolve_selection,
                                       the /api/process handler)
  - app/services/reprocess_locations.py (/api/reprocess handler)
  - app/services/fetch_facilities.py    (/api/facilities handler)
  - app/services/backfill_facilities.py (/api/backfill handler)
  - app/services/generate_lha.py        (/api/lha handler)
  - app/main.py                    (_filter_noise, _execute_job message logic)

Python dicts loaded from JSON objects are modelled as insertion-ordered
association lists with pairwise-distinct keys.  Python `Optional[str]`
values are `Option String`; Python truthiness of such a value
(`None` and `''` are falsy) is `pyTruthy`.  Raised exceptions are the
error side of `Except`.
-/

deriving instance DecidableEq for Except

namespace ATLS

/-- Python truthiness of an `Optional[str]`: `None` and `''` are falsy. -/
def pyTruthy : Option String → Bool
  | none => false
  | some s => s != ""

/-- Python `s or None` for a string `s`: empty string becomes `None`. -/
def strOrNone (s : String) : Option String :=
  if s = "" then none else some s

/-- Python `a or b` where `a : Optional[str]` and `b : str`. -/
def pyOrStr (a : Option String) (b : String) : String :=
  match a with
  | none => b
  | some s => if s = "" then b else s

/-- Python `str.strip()`: drop leading and trailing whitespace.
(Structural-recursion counterpart of `String.trim`.) -/
def pyStrip (s : String) : String :=
  ⟨((s.data.dropWhile Char.isWhitespace).reverse.dropWhile Char.isWhitespace).reverse⟩

/-- Split a character list at every occurrence of `c`. -/
def splitOnChar (c : Char) : List Char → List (List Char)
  | [] => [[]]
  | a :: rest =>
    match splitOnChar c rest with
    | [] => if a = c then [[], []] else [[a]]
    | h :: t => if a = c then [] :: h :: t else (a :: h) :: t

/-- The lines of `s`, splitting at `'\n'` (Python `str.splitlines` for
`\n`-separated text; a possible final empty line is dropped by the
callers' falsy-line filters). -/
def pyLines (s : String) : List String :=
  (splitOnChar '\n' s.data).map (fun l => String.mk l)

/-- `sep.join(lines)` / `String.intercalate`, by structural recursion. -/
def joinWith (sep : String) : List String → String
  | [] => ""
  | [x] => x
  | x :: xs => x ++ sep ++ joinWith sep xs

/-- `pat` occurs as a contiguous sublist of `l`. -/
def charsContain (pat : List Char) : List Char → Bool
  | [] => pat.isEmpty
  | c :: rest => pat.isPrefixOf (c :: rest) || charsContain pat rest

/-- Python `pat in s` substring test. -/
def strContains (s pat : String) : Bool :=
  charsContain pat.toList s.toList

/-- `app/services/schemas.py`: the `ScriptResponse` pydantic model. -/
structure ScriptResponse where
  success : Bool
  returncode : Int
  stdout : Option String
  stderr : Option String
deriving DecidableEq, Repr

/-- Outcome of a completed subprocess: exit status plus the decoded
(`errors='replace'`) stdout/stderr text. -/
structure ProcOutcome where
  returncode : Int
  stdout : String
  stderr : String
deriving DecidableEq, Repr

/-- `app/services/_runner.py` `run_script`, abstracted over whether the
named script file exists and over the subprocess outcome.  The error side
is the raised `FileNotFoundError` (raised before any subprocess is
spawned: the `proc` argument is not consulted on that path).  The
response mirrors lines 79-84 of `_runner.py`:
`success=returncode == 0`, `stdout=stdout_text.strip() or None`,
`stderr=stderr_text.strip() or None`. -/
def run_script (script_exists : Bool) (proc : ProcOutcome) :
    Except String ScriptResponse :=
  if script_exists then
    .ok { success := proc.returncode == 0
          returncode := proc.returncode
          stdout := strOrNone (pyStrip proc.stdout)
          stderr := strOrNone (pyStrip proc.stderr) }
  else
    .error "FileNotFoundError"

/-- `app/main.py` `_NOISE_PATTERNS`. -/
def NOISE_PATTERNS : List String :=
  ["pkg_resources is deprecated",
   "RuntimeWarning: \x27scripts.process_new_locations\x27"]

/-- The comprehension filter of `_filter_noise`
(`app/main.py` lines 47-50): keep a line iff it is truthy and contains
no noise pattern. -/
def keepLine (line : String) : Bool :=
  line != "" && !(NOISE_PATTERNS.any (fun pat => strContains line pat))

/-- `'\n'.join(lines).strip()` over the kept lines of `t`
(`app/main.py` line 51). -/
def filteredText (t : String) : String :=
  pyStrip (joinWith "\n" ((pyLines t).filter keepLine))

/-- `app/main.py` `_filter_noise`.  Text is modelled as `\n`-separated
lines (the comprehension drops falsy lines, so Python `splitlines`'s
treatment of a trailing newline is indistinguishable from `splitOn`). -/
def filter_noise : Option String → Option String
  | none => none
  | some t =>
    if t = "" then none
    else if filteredText t = "" then none else some (filteredText t)

/-- A raised Python exception: class name plus `str(exc)` text. -/
structure PyExc where
  name : String
  text : String
deriving DecidableEq, Repr

/-- Configuration state read by preflight.  `Config.setup(force=True)`
copies `os.getenv` into the class attributes, so the double test
`not Config.X or not os.getenv('X')` in `preflight.py` reduces to a
single truthiness test per variable. -/
structure Env where
  NOTION_TOKEN : Option String
  GOOGLE_MAPS_API_KEY : Option String
  PRODUCTIONS_DB_ID : Option String
  LOCATIONS_MASTER_DB : Option String
  MEDICAL_FACILITIES_DB : Option String
deriving DecidableEq, Repr

/-- Observable state of `notion_tables.json`.  `unreadable` is an open
or read failure other than file-not-found (e.g. `PermissionError`),
carrying the exception's class name and text; `malformed` is a
`json.JSONDecodeError`; `jsonNonDict` is valid JSON that is not an
object; `jsonDict` is a JSON object as an insertion-ordered
association list. -/
inductive TablesFile
  | missing
  | unreadable (excName excText : String)
  | malformed
  | jsonNonDict
  | jsonDict (entries : List (String × String))
deriving DecidableEq, Repr

/-- The secret / dataset-identifier checks of `run_preflight`
(`preflight.py` lines 18-28), in source order. -/
def secretIssues (env : Env) : List String :=
  (if pyTruthy env.NOTION_TOKEN then [] else ["Missing NOTION_TOKEN in .env."])
    ++ (if pyTruthy env.GOOGLE_MAPS_API_KEY then [] else ["Missing GOOGLE_MAPS_API_KEY in .env."])
    ++ (if pyTruthy env.PRODUCTIONS_DB_ID then [] else ["Missing PRODUCTIONS_DB_ID in .env."])
    ++ (if pyTruthy env.LOCATIONS_MASTER_DB then [] else ["Missing LOCATIONS_MASTER_DB in .env."])
    ++ (if pyTruthy env.MEDICAL_FACILITIES_DB then [] else ["Missing MEDICAL_FACILITIES_DB in .env."])

/-- The selection-map check of `run_preflight` (`preflight.py` lines
30-39).  Only `FileNotFoundError` and `json.JSONDecodeError` are
caught; any other open/read failure propagates. -/
def tableIssues : TablesFile → Except PyExc (List String)
  | .missing => .ok ["notion_tables.json is missing; run sync_prod_tables."]
  | .unreadable n t => .error ⟨n, t⟩
  | .malformed => .ok ["notion_tables.json is malformed; re-run sync_prod_tables."]
  | .jsonNonDict => .ok ["notion_tables.json is empty; run sync_prod_tables."]
  | .jsonDict entries =>
    .ok (if entries.isEmpty then ["notion_tables.json is empty; run sync_prod_tables."] else [])

/-- `app/services/preflight.py` `run_preflight`. -/
def run_preflight (env : Env) (tables : TablesFile) (check_tables : Bool) :
    Except PyExc (List String) :=
  let issues := secretIssues env
  if check_tables then
    match tableIssues tables with
    | .error e => .error e
    | .ok ts => .ok (issues ++ ts)
  else
    .ok issues

/-- An exception crossing an API handler's `try` block: either a
`fastapi.HTTPException` (status code and detail) or an ordinary
exception (class name and text). -/
inductive PyFailure
  | httpExc (status : Nat) (detail : String)
  | exc (name text : String)
deriving DecidableEq, Repr

/-- `process_locations.py` `_load_table_map`.  Catches only
`FileNotFoundError`; a `json.JSONDecodeError` or other read failure
propagates as an ordinary exception. -/
def load_table_map : TablesFile → Except PyFailure (List (String × String))
  | .missing =>
    .error (.httpExc 400 "notion_tables.json not found. Run sync_prod_tables first.")
  | .unreadable n t => .error (.exc n t)
  | .malformed => .error (.exc "JSONDecodeError" "Expecting value")
  | .jsonNonDict => .error (.httpExc 400 "notion_tables.json is empty or malformed.")
  | .jsonDict entries =>
    if entries.isEmpty then
      .error (.httpExc 400 "notion_tables.json is empty or malformed.")
    else
      .ok entries

/-- `process_locations.py` `_resolve_selection`.  The error side is the
`HTTPException(400, detail)` detail string.  Note the unknown-key test
runs before the empty-map test, and an empty-string requested key is
falsy (treated as no request). -/
def resolve_selection (table_map : List (String × String))
    (requested_key : Option String) : Except String String :=
  if pyTruthy requested_key
      && !((table_map.map Prod.fst).contains (requested_key.getD "")) then
    .error ("Unknown production \x27" ++ requested_key.getD "" ++ "\x27.")
  else
    match table_map.map Prod.fst with
    | [] => .error "No productions available in notion_tables.json."
    | k :: _ => .ok (if pyTruthy requested_key then requested_key.getD "" else k)

/-- The arguments the handler passes to `run_script`. -/
structure RunCall where
  script : String
  args : List String
  input_data : Option String
deriving DecidableEq, Repr

/-- What an API route returns to the HTTP layer: a propagated
`HTTPException` (FastAPI renders it with its status code) or a normal
HTTP 200 with a `ScriptResponse` body. -/
inductive EndpointResult
  | http (status : Nat) (detail : String)
  | body (r : ScriptResponse)
deriving DecidableEq, Repr

/-- `f'{type(exc).__name__}: {exc}' or 'Unexpected error.'` from the
generic `except Exception` handlers. -/
def genericStderr (name text : String) : String :=
  let msg := name ++ ": " ++ text
  if msg = "" then "Unexpected error." else msg

/-- The `ScriptResponse` produced by the generic `except Exception`
fallback of each handler. -/
def genericFailureResponse (name text : String) : ScriptResponse :=
  { success := false, returncode := 1, stdout := none
    stderr := some (genericStderr name text) }

/-- The `ScriptResponse` produced by each handler's
`except FileNotFoundError` clause (sentinel return code 127). -/
def notFoundResponse (script : String) : ScriptResponse :=
  { success := false, returncode := 127, stdout := none
    stderr := some (script ++ " not found in scripts/.") }

/-- Everything `/api/process` does before `run_script`
(`process_locations.py` lines 61-70): preflight, table-map load, key
resolution, and the 1-based `selection_index` written to stdin. -/
def process_plan (env : Env) (tables : TablesFile) (table_key : Option String) :
    Except PyFailure RunCall :=
  match run_preflight env tables true with
  | .error e => .error (.exc e.name e.text)
  | .ok issues =>
    if issues.isEmpty then
      match load_table_map tables with
      | .error f => .error f
      | .ok table_map =>
        match resolve_selection table_map table_key with
        | .error d => .error (.httpExc 400 d)
        | .ok selected_key =>
          .ok { script := "process_new_locations.py", args := []
                input_data :=
                  some (toString ((table_map.map Prod.fst).indexOf selected_key + 1) ++ "\n") }
    else
      .error (.httpExc 400 (joinWith "; " issues))

/-- Same for `/api/reprocess` (`reprocess_locations.py` lines 14-25):
identical resolution, but `args=('--all',)` and stdin
`f'{selection_index}\nn\n'`. -/
def reprocess_plan (env : Env) (tables : TablesFile) (table_key : Option String) :
    Except PyFailure RunCall :=
  match run_preflight env tables true with
  | .error e => .error (.exc e.name e.text)
  | .ok issues =>
    if issues.isEmpty then
      match load_table_map tables with
      | .error f => .error f
      | .ok table_map =>
        match resolve_selection table_map table_key with
        | .error d => .error (.httpExc 400 d)
        | .ok selected_key =>
          .ok { script := "process_new_locations.py", args := ["--all"]
                input_data :=
                  some (toString ((table_map.map Prod.fst).indexOf selected_key + 1) ++ "\nn\n") }
    else
      .error (.httpExc 400 (joinWith "; " issues))

/-- The `except` dispatch of `process_locations` / `reprocess_locations`:
`except HTTPException: raise`, then `except FileNotFoundError`, then
`except Exception`. -/
def handleExc (script : String) : PyFailure → EndpointResult
  | .httpExc s d => .http s d
  | .exc n t =>
    if n = "FileNotFoundError" then .body (notFoundResponse script)
    else .body (genericFailureResponse n t)

/-- The `except` dispatch of `generate_lha` / `fetch_facilities` /
`backfill_facilities`: these handlers have no
`except HTTPException: raise` clause, so a raised `HTTPException` is
swallowed by `except Exception` and converted to a 200 body
(`str` of a starlette `HTTPException` is `f'{status_code}: {detail}'`). -/
def handleExcNoReraise (script : String) : PyFailure → EndpointResult
  | .httpExc s d => .body (genericFailureResponse "HTTPException" (toString s ++ ": " ++ d))
  | .exc n t =>
    if n = "FileNotFoundError" then .body (notFoundResponse script)
    else .body (genericFailureResponse n t)

/-- `POST /api/process` (`process_locations.py`), abstracted over the
`run_script` outcome: `runner call = .error ()` is a raised
`FileNotFoundError`. -/
def process_locations (env : Env) (tables : TablesFile) (table_key : Option String)
    (runner : RunCall → Except Unit ScriptResponse) : EndpointResult :=
  match process_plan env tables table_key with
  | .error f => handleExc "process_new_locations.py" f
  | .ok call =>
    match runner call with
    | .error () => .body (notFoundResponse "process_new_locations.py")
    | .ok r => .body r

/-- `POST /api/reprocess` (`reprocess_locations.py`). -/
def reprocess_locations (env : Env) (tables : TablesFile) (table_key : Option String)
    (runner : RunCall → Except Unit ScriptResponse) : EndpointResult :=
  match reprocess_plan env tables table_key with
  | .error f => handleExc "process_new_locations.py" f
  | .ok call =>
    match runner call with
    | .error () => .body (notFoundResponse "process_new_locations.py")
    | .ok r => .body r

/-- `POST /api/facilities` (`fetch_facilities.py`). -/
def fetch_facilities (env : Env) (tables : TablesFile)
    (runner : RunCall → Except Unit ScriptResponse) : EndpointResult :=
  match run_preflight env tables true with
  | .error e => handleExcNoReraise "fetch_medical_facilities.py" (.exc e.name e.text)
  | .ok issues =>
    if issues.isEmpty then
      match runner { script := "fetch_medical_facilities.py", args := ["--dry-run"]
                     input_data := none } with
      | .error () => .body (notFoundResponse "fetch_medical_facilities.py")
      | .ok r => .body r
    else
      handleExcNoReraise "fetch_medical_facilities.py"
        (.httpExc 400 (joinWith "; " issues))

/-- `POST /api/backfill` (`backfill_facilities.py`). -/
def backfill_facilities (env : Env) (tables : TablesFile)
    (runner : RunCall → Except Unit ScriptResponse) : EndpointResult :=
  match run_preflight env tables true with
  | .error e => handleExcNoReraise "fetch_medical_facilities.py" (.exc e.name e.text)
  | .ok issues =>
    if issues.isEmpty then
      match runner { script := "fetch_medical_facilities.py"
                     args := ["--dry-run", "--backfill-existing"]
                     input_data := none } with
      | .error () => .body (notFoundResponse "fetch_medical_facilities.py")
      | .ok r => .body r
    else
      handleExcNoReraise "fetch_medical_facilities.py"
        (.httpExc 400 (joinWith "; " issues))

/-- The fixed guidance message of `generate_lha.py` lines 19-22. -/
def lhaGuidance : String :=
  "LHA generation tool requires interactive selections; run scripts/generate_lha_forms.py manually for now."

/-- The post-processing of `generate_lha` (`generate_lha.py` lines
18-23): on failure with an `EOFError` mention in stderr, stderr is
replaced by `lhaGuidance`; success and returncode are untouched. -/
def lha_post (r : ScriptResponse) : ScriptResponse :=
  if !r.success && pyTruthy r.stderr && strContains (r.stderr.getD "") "EOFError" then
    { r with stderr := some lhaGuidance }
  else r

/-- `POST /api/lha` (`generate_lha.py`). -/
def generate_lha (env : Env) (tables : TablesFile)
    (runner : RunCall → Except Unit ScriptResponse) : EndpointResult :=
  match run_preflight env tables true with
  | .error e => handleExcNoReraise "generate_lha_forms.py" (.exc e.name e.text)
  | .ok issues =>
    if issues.isEmpty then
      match runner { script := "generate_lha_forms.py", args := []
                     input_data := some "m\n" } with
      | .error () => .body (notFoundResponse "generate_lha_forms.py")
      | .ok r => .body (lha_post r)
    else
      handleExcNoReraise "generate_lha_forms.py"
        (.httpExc 400 (joinWith "; " issues))

/-- The decoded loopback HTTP response as seen by `_execute_job`
(`app/main.py`): `ok` is `response.ok`, `text` is `response.text`, and
the other fields are `payload.get(...)` of the JSON body (absent or
null keys are `none`; `success` is modelled as the boolean the
`ScriptResponse` schema produces, truthy iff `some true`). -/
structure ApiResponse where
  ok : Bool
  success : Option Bool
  detail : Option String
  stderr : Option String
  stdout : Option String
  text : String
deriving DecidableEq, Repr

/-- The failure-branch source text
`payload.get('detail') or payload.get('stderr') or payload.get('stdout') or response.text`
(`app/main.py` lines 146-150): the first Python-truthy value wins;
noise filtering is applied only afterwards, to that single value. -/
def orChain (detail stderr stdout : Option String) (text : String) : String :=
  pyOrStr detail (pyOrStr stderr (pyOrStr stdout text))

/-- The `success` flag and `message` that `_execute_job` records in
`_LAST_RUN` (and shows on the status label) once the loopback response
has been decoded (`app/main.py` lines 139-155). -/
def execute_job_record (r : ApiResponse) (default_success_detail : String) :
    Bool × String :=
  if r.ok && (r.success == some true) then
    (true, pyOrStr (filter_noise r.stdout) default_success_detail)
  else
    (false,
     pyOrStr (filter_noise (some (orChain r.detail r.stderr r.stdout r.text)))
       "Unknown error.")

/-! ## Helper lemmas -/

/-- `filter_noise` never produces the empty string: filtering that
leaves nothing yields `none` (`'...'.strip() or None`). -/
theorem filter_noise_ne_empty (x : Option String) (s : String)
    (h : filter_noise x = some s) : s ≠ "" := by
  cases x with
  | none => simp [filter_noise] at h
  | some t =>
    simp only [filter_noise] at h
    by_cases ht : t = ""
    · rw [if_pos ht] at h
      exact absurd h (by simp)
    · rw [if_neg ht] at h
      by_cases hj : filteredText t = ""
      · rw [if_pos hj] at h
        exact absurd h (by simp)
      · rw [if_neg hj] at h
        injection h with h
        exact fun hs => hj (h.trans hs)

/-- In a duplicate-free list, `indexOf` recovers the position of an
element found by `get?`. -/
theorem indexOf_eq_of_get? {l : List String} {k : String} {i : Nat}
    (hn : l.Nodup) (hg : l.get? i = some k) : l.indexOf k = i := by
  induction l generalizing i with
  | nil => simp at hg
  | cons a tl ih =>
    cases i with
    | zero =>
      simp only [List.get?_cons_zero, Option.some.injEq] at hg
      subst hg
      exact List.indexOf_cons_self a tl
    | succ j =>
      simp only [List.get?_cons_succ] at hg
      have hk : k ∈ tl := List.get?_mem hg
      have ha : a ≠ k := by
        rintro rfl
        exact (List.nodup_cons.mp hn).1 hk
      rw [List.indexOf_cons_ne _ ha, ih (List.nodup_cons.mp hn).2 hg]

/-! ## C1 -/

/-- C1: for every completed `run_script` invocation, the returned
result has `success = true` iff `returncode = 0`, for every return
code including negative/signal values; `success` is a function of the
return code alone. -/
theorem run_script_success_iff_returncode_zero (script_exists : Bool)
    (proc : ProcOutcome) (r : ScriptResponse)
    (h : run_script script_exists proc = .ok r) :
    r.success = true ↔ r.returncode = 0 := by
  cases script_exists with
  | false => simp [run_script] at h
  | true =>
    simp only [run_script, if_true, Except.ok.injEq] at h
    subst h
    simp [beq_iff_eq]

/-- Witness for C1 at the signal-style return code `-9`. -/
theorem run_script_success_iff_returncode_zero_witness :
    (ScriptResponse.mk false (-9) none none).success = true
      ↔ (ScriptResponse.mk false (-9) none none).returncode = 0 :=
  run_script_success_iff_returncode_zero true ⟨-9, "", ""⟩
    ⟨false, -9, none, none⟩ (by decide)

/-! ## C7 -/

/-- C7: `run_script` fails (raises) exactly when the script file is
absent, without consulting the subprocess outcome, and that is its
only raised error; a non-zero exit is returned as a structured result;
the `/api/process` handler converts the raised not-found error into a
200 body with `success = false` and sentinel return code 127 (never a
propagated error), and `/api/lha` does the same. -/
theorem run_script_not_found_contract :
    (∀ proc, run_script false proc = .error "FileNotFoundError")
    ∧ (∀ ex proc e, run_script ex proc = .error e →
        ex = false ∧ e = "FileNotFoundError")
    ∧ (∀ proc, proc.returncode ≠ 0 → ∃ r, run_script true proc = .ok r
        ∧ r.success = false ∧ r.returncode = proc.returncode)
    ∧ (∀ env tables key call, process_plan env tables key = .ok call →
        process_locations env tables key (fun _ => .error ())
          = .body (notFoundResponse "process_new_locations.py"))
    ∧ (∀ env tables, run_preflight env tables true = .ok [] →
        generate_lha env tables (fun _ => .error ())
          = .body (notFoundResponse "generate_lha_forms.py")) := by
  refine ⟨fun proc => rfl, ?_, ?_, ?_, ?_⟩
  · intro ex proc e h
    cases ex with
    | false =>
      refine ⟨rfl, ?_⟩
      simp only [run_script, Bool.false_eq_true, if_false, Except.error.injEq] at h
      exact h.symm
    | true => simp [run_script] at h
  · intro proc h
    refine ⟨_, rfl, ?_, rfl⟩
    simpa using h
  · intro env tables key call h
    simp [process_locations, h]
  · intro env tables h
    simp [generate_lha, h, List.isEmpty]

/-- Witness for C7: concrete full application of each conjunct. -/
theorem run_script_not_found_contract_witness :
    run_script false ⟨0, "", ""⟩ = .error "FileNotFoundError"
    ∧ process_locations ⟨some "t", some "g", some "p", some "l", some "m"⟩
        (.jsonDict [("A", "id1")]) none (fun _ => .error ())
        = .body (notFoundResponse "process_new_locations.py")
    ∧ generate_lha ⟨some "t", some "g", some "p", some "l", some "m"⟩
        (.jsonDict [("A", "id1")]) (fun _ => .error ())
        = .body (notFoundResponse "generate_lha_forms.py") :=
  ⟨run_script_not_found_contract.1 ⟨0, "", ""⟩,
   run_script_not_found_contract.2.2.2.1 _ _ none
     ⟨"process_new_locations.py", [], some "1\n"⟩ (by decide),
   run_script_not_found_contract.2.2.2.2 _ _ (by decide)⟩

/-! ## C2 -/

/-- C2: selection resolution fails with the unknown-production error
when the requested key is truthy and absent (this test runs first);
fails with the no-productions error when the map is empty and no key
was requested; otherwise returns the requested key when given, else
the first key in insertion order; and a failed resolution makes the
`/api/process` handler's outcome independent of the script runner
(`run_script` is never invoked). -/
theorem resolve_selection_spec (table_map : List (String × String))
    (requested_key : Option String) :
    (pyTruthy requested_key = true →
      (table_map.map Prod.fst).contains (requested_key.getD "") = false →
      resolve_selection table_map requested_key =
        .error ("Unknown production \x27" ++ requested_key.getD "" ++ "\x27."))
    ∧ (table_map = [] → pyTruthy requested_key = false →
      resolve_selection table_map requested_key =
        .error "No productions available in notion_tables.json.")
    ∧ (pyTruthy requested_key = true →
      (table_map.map Prod.fst).contains (requested_key.getD "") = true →
      resolve_selection table_map requested_key = .ok (requested_key.getD ""))
    ∧ (pyTruthy requested_key = false → ∀ k rest,
      table_map.map Prod.fst = k :: rest →
      resolve_selection table_map requested_key = .ok k)
    ∧ (∀ d, resolve_selection table_map requested_key = .error d →
      ∀ env tables runner runner₂, load_table_map tables = .ok table_map →
        process_locations env tables requested_key runner
          = process_locations env tables requested_key runner₂) := by
  refine ⟨?_, ?_, ?_, ?_, ?_⟩
  · intro h1 h2
    have hc : (pyTruthy requested_key
        && !((table_map.map Prod.fst).contains (requested_key.getD ""))) = true := by
      rw [h1, h2]
      rfl
    unfold resolve_selection
    rw [if_pos hc]
  · intro h1 h2
    subst h1
    have hc : (pyTruthy requested_key
        && !((([] : List (String × String)).map Prod.fst).contains (requested_key.getD ""))) = false := by
      rw [h2]
      rfl
    unfold resolve_selection
    rw [if_neg (by rw [hc]; exact Bool.false_ne_true)]
    rfl
  · intro h1 h2
    have hc : (pyTruthy requested_key
        && !((table_map.map Prod.fst).contains (requested_key.getD ""))) = false := by
      rw [h1, h2]
      rfl
    unfold resolve_selection
    rw [if_neg (by rw [hc]; exact Bool.false_ne_true)]
    cases hk : table_map.map Prod.fst with
    | nil => rw [hk] at h2; simp at h2
    | cons a tl => simp [h1]
  · intro h1 k rest hk
    have hc : (pyTruthy requested_key
        && !((table_map.map Prod.fst).contains (requested_key.getD ""))) = false := by
      rw [h1]
      rfl
    unfold resolve_selection
    rw [if_neg (by rw [hc]; exact Bool.false_ne_true), hk]
    simp [h1]
  · intro d hd env tables runner runner₂ hload
    unfold process_locations process_plan
    cases hp : run_preflight env tables true with
    | error e => rfl
    | ok issues =>
      cases hi : issues.isEmpty with
      | false => simp [hi]
      | true => simp [hi, hload, hd]

/-- Witness for C2: the unknown-key case on `{"A": "id1", "B": "id2"}`
with requested key `"C"`. -/
theorem resolve_selection_spec_witness :
    resolve_selection [("A", "id1"), ("B", "id2")] (some "C")
      = .error ("Unknown production \x27" ++ (some "C").getD "" ++ "\x27.") :=
  (resolve_selection_spec [("A", "id1"), ("B", "id2")] (some "C")).1
    (by decide) (by decide)

/-! ## C8 -/

/-- C8 counterexample: in `"a\n\nb"` no line contains a noise pattern,
yet the filtered result is `"a\nb"`, not the original text — the empty
middle line was dropped even though it matches no noise substring, so
filtering does not keep exactly the non-matching lines. -/
theorem filter_noise_drops_nonmatching_empty_line :
    filter_noise (some "a\n\nb") = some "a\nb"
    ∧ (∀ line ∈ pyLines "a\n\nb", ∀ pat ∈ NOISE_PATTERNS,
        strContains line pat = false)
    ∧ ("a\nb" : String) ≠ "a\n\nb" := by
  decide

/-- C8 amended: filtering keeps exactly the lines that are truthy
(non-empty) and contain no noise substring, rejoins them and strips
outer whitespace; the result is `none`, never the empty string, when
every line is empty or noisy. -/
theorem filter_noise_amended (t : String) :
    filter_noise (some t) ≠ some ""
    ∧ (∀ r, filter_noise (some t) = some r →
        r = pyStrip (joinWith "\n" ((pyLines t).filter keepLine)))
    ∧ ((∀ line ∈ pyLines t,
          line = "" ∨ ∃ pat ∈ NOISE_PATTERNS, strContains line pat = true) →
        filter_noise (some t) = none) := by
  refine ⟨fun h => filter_noise_ne_empty _ _ h rfl, ?_, ?_⟩
  · intro r h
    simp only [filter_noise] at h
    by_cases ht : t = ""
    · rw [if_pos ht] at h
      exact absurd h (by simp)
    · rw [if_neg ht] at h
      by_cases hj : filteredText t = ""
      · rw [if_pos hj] at h
        exact absurd h (by simp)
      · rw [if_neg hj] at h
        injection h with h
        exact h.symm
  · intro hall
    simp only [filter_noise]
    by_cases ht : t = ""
    · rw [if_pos ht]
    · rw [if_neg ht]
      have hf : (pyLines t).filter keepLine = [] := by
        rw [List.filter_eq_nil_iff]
        intro a ha hP
        unfold keepLine at hP
        rw [Bool.and_eq_true] at hP
        rcases hall a ha with h0 | ⟨p, hp, hs⟩
        · rw [h0] at hP
          exact absurd hP.1 (by simp)
        · have hany : NOISE_PATTERNS.any (fun pat => strContains a pat) = true :=
            List.any_eq_true.mpr ⟨p, hp, hs⟩
          rw [hany] at hP
          exact absurd hP.2 (by simp)
      have hft : filteredText t = "" := by
        unfold filteredText
        rw [hf]
        rfl
      rw [if_pos hft]

/-- Witness for C8 amended: a solely-noise input filters to `none`. -/
theorem filter_noise_amended_witness :
    filter_noise (some "pkg_resources is deprecated") = none :=
  (filter_noise_amended "pkg_resources is deprecated").2.2 (by decide)

/-! ## C4 -/

/-- C4 counterexample: the loopback body has `detail` consisting solely
of a noise line and a non-empty `stderr`; the recorded failure message
is the generic `"Unknown error."` even though `stderr` is non-empty
after filtering, because the or-chain commits to the first truthy
field before filtering and never falls through to later fields. -/
theorem execute_job_unknown_error_despite_stderr :
    execute_job_record
        ⟨true, some false, some "pkg_resources is deprecated",
         some "real error", none, ""⟩ "done"
      = (false, "Unknown error.")
    ∧ filter_noise (some "real error") = some "real error"
    ∧ ("real error" : String) ≠ "" := by
  decide

/-- C4 amended: on the failure branch the recorded message is the
noise-filtered value of the first Python-truthy field in preference
order `detail`, `stderr`, `stdout`, raw body; it is `"Unknown error."`
when that single chosen value filters to nothing — later fields are
not consulted. -/
theorem execute_job_failure_message (r : ApiResponse) (d : String)
    (h : ¬(r.ok = true ∧ r.success = some true)) :
    (execute_job_record r d).1 = false
    ∧ (execute_job_record r d).2
        = (filter_noise (some (orChain r.detail r.stderr r.stdout r.text))).getD
            "Unknown error." := by
  have hc : (r.ok && (r.success == some true)) = false := by
    cases ho : r.ok with
    | false => rfl
    | true =>
      have hs : r.success ≠ some true := fun hs => h ⟨ho, hs⟩
      simp [hs]
  unfold execute_job_record
  rw [hc]
  refine ⟨rfl, ?_⟩
  cases hf : filter_noise (some (orChain r.detail r.stderr r.stdout r.text)) with
  | none => rfl
  | some m =>
    have hm : m ≠ "" := filter_noise_ne_empty _ _ hf
    simp [pyOrStr, hm]

/-- Witness for C4 amended at a non-ok response with a real stderr. -/
theorem execute_job_failure_message_witness :
    (execute_job_record ⟨false, none, none, some "boom", none, ""⟩ "d").1 = false
    ∧ (execute_job_record ⟨false, none, none, some "boom", none, ""⟩ "d").2
        = (filter_noise (some (orChain none (some "boom") none ""))).getD
            "Unknown error." :=
  execute_job_failure_message ⟨false, none, none, some "boom", none, ""⟩ "d"
    (by simp)

/-! ## C5 -/

/-- C5: for `/api/process` and `/api/reprocess`, when preflight passes
and the key resolves, the synthetic menu-selection value written to the
script's stdin is exactly the resolved key's 1-based position in the
selection map's insertion order (`i + 1` when the key sits at 0-based
position `i` among the map's pairwise-distinct keys). -/
theorem selection_index_is_position (env : Env) (tables : TablesFile)
    (rk : Option String) (m : List (String × String)) (k : String) (i : Nat)
    (hpre : run_preflight env tables true = .ok [])
    (hload : load_table_map tables = .ok m)
    (hres : resolve_selection m rk = .ok k)
    (hnd : (m.map Prod.fst).Nodup)
    (hget : (m.map Prod.fst).get? i = some k) :
    process_plan env tables rk
      = .ok ⟨"process_new_locations.py", [], some (toString (i + 1) ++ "\n")⟩
    ∧ reprocess_plan env tables rk
      = .ok ⟨"process_new_locations.py", ["--all"],
             some (toString (i + 1) ++ "\nn\n")⟩ := by
  have hidx : (m.map Prod.fst).indexOf k = i := indexOf_eq_of_get? hnd hget
  constructor
  · unfold process_plan
    rw [hpre]
    simp [hload, hres, hidx]
  · unfold reprocess_plan
    rw [hpre]
    simp [hload, hres, hidx]

/-- Witness for C5: map `{"A": "id1", "B": "id2"}`, requested key
`"B"` at 0-based position 1 → stdin selections `"2\n"` and `"2\nn\n"`. -/
theorem selection_index_is_position_witness :
    process_plan ⟨some "t", some "g", some "p", some "l", some "m"⟩
        (.jsonDict [("A", "id1"), ("B", "id2")]) (some "B")
      = .ok ⟨"process_new_locations.py", [], some (toString (1 + 1) ++ "\n")⟩
    ∧ reprocess_plan ⟨some "t", some "g", some "p", some "l", some "m"⟩
        (.jsonDict [("A", "id1"), ("B", "id2")]) (some "B")
      = .ok ⟨"process_new_locations.py", ["--all"],
             some (toString (1 + 1) ++ "\nn\n")⟩ :=
  selection_index_is_position _ _ _ [("A", "id1"), ("B", "id2")] "B" 1
    (by decide) (by decide) (by decide) (by decide) (by decide)

/-! ## C9 -/

/-- C9 counterexample: an unreadable selection-map file (here a
`PermissionError`) is not converted into an issue — it propagates out
of `run_preflight` as a raised exception, because only
`FileNotFoundError` and `json.JSONDecodeError` are caught. -/
theorem run_preflight_raises_on_unreadable :
    run_preflight ⟨some "t", some "g", some "p", some "l", some "m"⟩
        (.unreadable "PermissionError" "Permission denied") true
      = .error ⟨"PermissionError", "Permission denied"⟩ := by
  decide

/-- C9 amended: for every selection-map state other than an unreadable
file, `run_preflight` returns normally, converting the missing,
malformed, and wrong-shape/empty cases into issue strings. -/
theorem run_preflight_no_raise (env : Env) (tables : TablesFile)
    (check_tables : Bool) (h : ∀ n t, tables ≠ TablesFile.unreadable n t) :
    ∃ issues, run_preflight env tables check_tables = .ok issues
      ∧ (check_tables = true → tables = .missing →
          "notion_tables.json is missing; run sync_prod_tables." ∈ issues)
      ∧ (check_tables = true → tables = .malformed →
          "notion_tables.json is malformed; re-run sync_prod_tables." ∈ issues)
      ∧ (check_tables = true → (tables = .jsonNonDict ∨ tables = .jsonDict []) →
          "notion_tables.json is empty; run sync_prod_tables." ∈ issues) := by
  cases check_tables with
  | false =>
    refine ⟨secretIssues env, rfl, ?_, ?_, ?_⟩ <;> intro hf <;> simp at hf
  | true =>
    cases tables with
    | unreadable n t => exact absurd rfl (h n t)
    | missing =>
      refine ⟨secretIssues env
        ++ ["notion_tables.json is missing; run sync_prod_tables."], rfl, ?_, ?_, ?_⟩
      · intro _ _
        simp
      · intro _ he
        simp at he
      · intro _ he
        rcases he with he | he <;> simp at he
    | malformed =>
      refine ⟨secretIssues env
        ++ ["notion_tables.json is malformed; re-run sync_prod_tables."], rfl, ?_, ?_, ?_⟩
      · intro _ he
        simp at he
      · intro _ _
        simp
      · intro _ he
        rcases he with he | he <;> simp at he
    | jsonNonDict =>
      refine ⟨secretIssues env
        ++ ["notion_tables.json is empty; run sync_prod_tables."], rfl, ?_, ?_, ?_⟩
      · intro _ he
        simp at he
      · intro _ he
        simp at he
      · intro _ _
        simp
    | jsonDict es =>
      cases es with
      | nil =>
        refine ⟨secretIssues env
          ++ ["notion_tables.json is empty; run sync_prod_tables."], rfl, ?_, ?_, ?_⟩
        · intro _ he
          simp at he
        · intro _ he
          simp at he
        · intro _ _
          simp
      | cons e es =>
        refine ⟨secretIssues env ++ [], rfl, ?_, ?_, ?_⟩
        · intro _ he
          simp at he
        · intro _ he
          simp at he
        · intro _ he
          rcases he with he | he <;> simp at he

/-- Witness for C9 amended at a missing selection map. -/
theorem run_preflight_no_raise_witness :
    ∃ issues,
      run_preflight ⟨some "t", some "g", some "p", some "l", some "m"⟩
          TablesFile.missing true = .ok issues
      ∧ (true = true → TablesFile.missing = TablesFile.missing →
          "notion_tables.json is missing; run sync_prod_tables." ∈ issues)
      ∧ (true = true → TablesFile.missing = TablesFile.malformed →
          "notion_tables.json is malformed; re-run sync_prod_tables." ∈ issues)
      ∧ (true = true →
          (TablesFile.missing = TablesFile.jsonNonDict
            ∨ TablesFile.missing = TablesFile.jsonDict []) →
          "notion_tables.json is empty; run sync_prod_tables." ∈ issues) :=
  run_preflight_no_raise ⟨some "t", some "g", some "p", some "l", some "m"⟩
    TablesFile.missing true (fun _ _ he => TablesFile.noConfusion he)

/-! ## C3 -/

/-- Full characterization of the secret/identifier checks: the issue
list contains each missing-variable message exactly when the variable
is untruthy, contains no selection-map message, has no duplicates, and
is empty iff all five variables are truthy. -/
theorem secretIssues_spec (env : Env) :
    (secretIssues env).Nodup
    ∧ (("Missing NOTION_TOKEN in .env." ∈ secretIssues env)
        ↔ pyTruthy env.NOTION_TOKEN = false)
    ∧ (("Missing GOOGLE_MAPS_API_KEY in .env." ∈ secretIssues env)
        ↔ pyTruthy env.GOOGLE_MAPS_API_KEY = false)
    ∧ (("Missing PRODUCTIONS_DB_ID in .env." ∈ secretIssues env)
        ↔ pyTruthy env.PRODUCTIONS_DB_ID = false)
    ∧ (("Missing LOCATIONS_MASTER_DB in .env." ∈ secretIssues env)
        ↔ pyTruthy env.LOCATIONS_MASTER_DB = false)
    ∧ (("Missing MEDICAL_FACILITIES_DB in .env." ∈ secretIssues env)
        ↔ pyTruthy env.MEDICAL_FACILITIES_DB = false)
    ∧ ("notion_tables.json is missing; run sync_prod_tables." ∉ secretIssues env)
    ∧ ("notion_tables.json is malformed; re-run sync_prod_tables." ∉ secretIssues env)
    ∧ ("notion_tables.json is empty; run sync_prod_tables." ∉ secretIssues env)
    ∧ ((secretIssues env = [])
        ↔ (pyTruthy env.NOTION_TOKEN = true ∧ pyTruthy env.GOOGLE_MAPS_API_KEY = true
            ∧ pyTruthy env.PRODUCTIONS_DB_ID = true
            ∧ pyTruthy env.LOCATIONS_MASTER_DB = true
            ∧ pyTruthy env.MEDICAL_FACILITIES_DB = true)) := by
  unfold secretIssues
  cases pyTruthy env.NOTION_TOKEN <;> cases pyTruthy env.GOOGLE_MAPS_API_KEY <;>
    cases pyTruthy env.PRODUCTIONS_DB_ID <;> cases pyTruthy env.LOCATIONS_MASTER_DB <;>
    cases pyTruthy env.MEDICAL_FACILITIES_DB <;> decide

/-- C3: `run_preflight` (with the table check on, for every readable
selection-map state) never stops early: it returns the complete,
duplicate-free set of issues, one distinct message per failing check,
and returns the empty list iff every check passes. -/
theorem run_preflight_complete (env : Env) (tables : TablesFile)
    (h : ∀ n t, tables ≠ TablesFile.unreadable n t) :
    ∃ issues, run_preflight env tables true = .ok issues
      ∧ issues.Nodup
      ∧ (("Missing NOTION_TOKEN in .env." ∈ issues)
          ↔ pyTruthy env.NOTION_TOKEN = false)
      ∧ (("Missing GOOGLE_MAPS_API_KEY in .env." ∈ issues)
          ↔ pyTruthy env.GOOGLE_MAPS_API_KEY = false)
      ∧ (("Missing PRODUCTIONS_DB_ID in .env." ∈ issues)
          ↔ pyTruthy env.PRODUCTIONS_DB_ID = false)
      ∧ (("Missing LOCATIONS_MASTER_DB in .env." ∈ issues)
          ↔ pyTruthy env.LOCATIONS_MASTER_DB = false)
      ∧ (("Missing MEDICAL_FACILITIES_DB in .env." ∈ issues)
          ↔ pyTruthy env.MEDICAL_FACILITIES_DB = false)
      ∧ (("notion_tables.json is missing; run sync_prod_tables." ∈ issues)
          ↔ tables = .missing)
      ∧ (("notion_tables.json is malformed; re-run sync_prod_tables." ∈ issues)
          ↔ tables = .malformed)
      ∧ (("notion_tables.json is empty; run sync_prod_tables." ∈ issues)
          ↔ (tables = .jsonNonDict ∨ tables = .jsonDict []))
      ∧ (issues = []
          ↔ (pyTruthy env.NOTION_TOKEN = true ∧ pyTruthy env.GOOGLE_MAPS_API_KEY = true
              ∧ pyTruthy env.PRODUCTIONS_DB_ID = true
              ∧ pyTruthy env.LOCATIONS_MASTER_DB = true
              ∧ pyTruthy env.MEDICAL_FACILITIES_DB = true
              ∧ ∃ es, tables = .jsonDict es ∧ es ≠ [])) := by
  obtain ⟨hnd, h1, h2, h3, h4, h5, hm1, hm2, hm3, hemp⟩ := secretIssues_spec env
  cases tables with
  | unreadable n t => exact absurd rfl (h n t)
  | missing =>
    refine ⟨secretIssues env
      ++ ["notion_tables.json is missing; run sync_prod_tables."],
      rfl, ?_, ?_, ?_, ?_, ?_, ?_, ?_, ?_, ?_, ?_⟩
    · rw [List.nodup_append]
      exact ⟨hnd, List.nodup_singleton _,
        fun a ha hb => hm1 (List.mem_singleton.mp hb ▸ ha)⟩
    · simp [List.mem_append, h1]
    · simp [List.mem_append, h2]
    · simp [List.mem_append, h3]
    · simp [List.mem_append, h4]
    · simp [List.mem_append, h5]
    · simp [List.mem_append, hm1]
    · simp [List.mem_append, hm2]
    · simp [List.mem_append, hm3]
    · simp [hemp]
  | malformed =>
    refine ⟨secretIssues env
      ++ ["notion_tables.json is malformed; re-run sync_prod_tables."],
      rfl, ?_, ?_, ?_, ?_, ?_, ?_, ?_, ?_, ?_, ?_⟩
    · rw [List.nodup_append]
      exact ⟨hnd, List.nodup_singleton _,
        fun a ha hb => hm2 (List.mem_singleton.mp hb ▸ ha)⟩
    · simp [List.mem_append, h1]
    · simp [List.mem_append, h2]
    · simp [List.mem_append, h3]
    · simp [List.mem_append, h4]
    · simp [List.mem_append, h5]
    · simp [List.mem_append, hm1]
    · simp [List.mem_append, hm2]
    · simp [List.mem_append, hm3]
    · simp [hemp]
  | jsonNonDict =>
    refine ⟨secretIssues env
      ++ ["notion_tables.json is empty; run sync_prod_tables."],
      rfl, ?_, ?_, ?_, ?_, ?_, ?_, ?_, ?_, ?_, ?_⟩
    · rw [List.nodup_append]
      exact ⟨hnd, List.nodup_singleton _,
        fun a ha hb => hm3 (List.mem_singleton.mp hb ▸ ha)⟩
    · simp [List.mem_append, h1]
    · simp [List.mem_append, h2]
    · simp [List.mem_append, h3]
    · simp [List.mem_append, h4]
    · simp [List.mem_append, h5]
    · simp [List.mem_append, hm1]
    · simp [List.mem_append, hm2]
    · simp [List.mem_append, hm3]
    · simp [hemp]
  | jsonDict es =>
    cases es with
    | nil =>
      refine ⟨secretIssues env
        ++ ["notion_tables.json is empty; run sync_prod_tables."],
        rfl, ?_, ?_, ?_, ?_, ?_, ?_, ?_, ?_, ?_, ?_⟩
      · rw [List.nodup_append]
        exact ⟨hnd, List.nodup_singleton _,
          fun a ha hb => hm3 (List.mem_singleton.mp hb ▸ ha)⟩
      · simp [List.mem_append, h1]
      · simp [List.mem_append, h2]
      · simp [List.mem_append, h3]
      · simp [List.mem_append, h4]
      · simp [List.mem_append, h5]
      · simp [List.mem_append, hm1]
      · simp [List.mem_append, hm2]
      · simp [List.mem_append, hm3]
      · simp [hemp]
    | cons e es =>
      refine ⟨secretIssues env ++ [],
        rfl, ?_, ?_, ?_, ?_, ?_, ?_, ?_, ?_, ?_, ?_⟩
      · rw [List.nodup_append]
        exact ⟨hnd, List.nodup_nil, fun a _ hb => (List.not_mem_nil a) hb⟩
      · simp [List.mem_append, h1]
      · simp [List.mem_append, h2]
      · simp [List.mem_append, h3]
      · simp [List.mem_append, h4]
      · simp [List.mem_append, h5]
      · simp [List.mem_append, hm1]
      · simp [List.mem_append, hm2]
      · simp [List.mem_append, hm3]
      · simp [hemp]

/-- Witness for C3 at a missing token and a missing selection map. -/
theorem run_preflight_complete_witness :
    ∃ issues,
      run_preflight ⟨none, some "g", some "p", some "l", some "m"⟩
          TablesFile.missing true = .ok issues
      ∧ issues.Nodup
      ∧ (("Missing NOTION_TOKEN in .env." ∈ issues)
          ↔ pyTruthy (none : Option String) = false)
      ∧ (("Missing GOOGLE_MAPS_API_KEY in .env." ∈ issues)
          ↔ pyTruthy (some "g") = false)
      ∧ (("Missing PRODUCTIONS_DB_ID in .env." ∈ issues)
          ↔ pyTruthy (some "p") = false)
      ∧ (("Missing LOCATIONS_MASTER_DB in .env." ∈ issues)
          ↔ pyTruthy (some "l") = false)
      ∧ (("Missing MEDICAL_FACILITIES_DB in .env." ∈ issues)
          ↔ pyTruthy (some "m") = false)
      ∧ (("notion_tables.json is missing; run sync_prod_tables." ∈ issues)
          ↔ TablesFile.missing = TablesFile.missing)
      ∧ (("notion_tables.json is malformed; re-run sync_prod_tables." ∈ issues)
          ↔ TablesFile.missing = TablesFile.malformed)
      ∧ (("notion_tables.json is empty; run sync_prod_tables." ∈ issues)
          ↔ (TablesFile.missing = TablesFile.jsonNonDict
              ∨ TablesFile.missing = TablesFile.jsonDict []))
      ∧ (issues = []
          ↔ (pyTruthy (none : Option String) = true ∧ pyTruthy (some "g") = true
              ∧ pyTruthy (some "p") = true
              ∧ pyTruthy (some "l") = true
              ∧ pyTruthy (some "m") = true
              ∧ ∃ es, TablesFile.missing = TablesFile.jsonDict es ∧ es ≠ [])) :=
  run_preflight_complete ⟨none, some "g", some "p", some "l", some "m"⟩
    TablesFile.missing (fun _ _ he => TablesFile.noConfusion he)

/-! ## C6 -/

/-- Preflight passing with the table check implies the selection map is
a non-empty JSON object and `_load_table_map` succeeds on it. -/
theorem preflight_ok_load_table_map {env : Env} {es : List (String × String)}
    (hp : run_preflight env (.jsonDict es) true = .ok []) :
    es.isEmpty = false ∧ load_table_map (.jsonDict es) = .ok es := by
  have he : es.isEmpty = false := by
    cases he : es.isEmpty with
    | false => rfl
    | true =>
      simp only [run_preflight, tableIssues, he, if_true, Except.ok.injEq] at hp
      exact absurd hp (by simp)
  refine ⟨he, ?_⟩
  simp only [load_table_map]
  rw [he]
  rfl

/-- Helper: `handleExcNoReraise` always produces a 200 body, never a
propagated `HTTPException`. -/
theorem handleExcNoReraise_ne_http (script : String) (f : PyFailure)
    (s : Nat) (d : String) : handleExcNoReraise script f ≠ .http s d := by
  cases f with
  | httpExc s2 d2 => simp [handleExcNoReraise]
  | exc n t =>
    by_cases hn : n = "FileNotFoundError" <;> simp [handleExcNoReraise, hn]

/-- C6 counterexample, both directions.  (a) With all secrets present
and selection map `{"A": "id1"}`, requesting the unknown key `"C"`
makes `/api/process` return HTTP 400 with the unknown-production
detail even though preflight passes with no issues — a 400 without a
preflight block.  (b) With a missing token and a missing map,
preflight blocks, yet `/api/lha` returns an HTTP 200 body (success
false, returncode 1, the issues buried in a stringified
`HTTPException`) because its handler has no `except HTTPException:
raise` clause — a preflight block without a 400. -/
theorem preflight_block_neither_necessary_nor_sufficient_for_400 :
    process_locations ⟨some "t", some "g", some "p", some "l", some "m"⟩
        (.jsonDict [("A", "id1")]) (some "C") (fun _ => .error ())
      = .http 400 "Unknown production \x27C\x27."
    ∧ run_preflight ⟨some "t", some "g", some "p", some "l", some "m"⟩
        (.jsonDict [("A", "id1")]) true = .ok []
    ∧ run_preflight ⟨none, some "g", some "p", some "l", some "m"⟩
        TablesFile.missing true
      = .ok ["Missing NOTION_TOKEN in .env.",
             "notion_tables.json is missing; run sync_prod_tables."]
    ∧ generate_lha ⟨none, some "g", some "p", some "l", some "m"⟩
        TablesFile.missing (fun _ => .error ())
      = .body (genericFailureResponse "HTTPException"
          ("400: Missing NOTION_TOKEN in .env.; notion_tables.json is missing; run sync_prod_tables.")) := by
  decide

/-- C6 amended, covering all five job-trigger endpoints.  On
`/api/process` and `/api/reprocess`: a preflight block returns HTTP
400 with the semicolon-joined issue string; when preflight passes, a
400 with a specific detail still arises from a failed selection
resolution; otherwise the outcome is a 200 body — the structured
result of the runner or the sentinel-127 not-found result.  On
`/api/facilities`, `/api/backfill` and `/api/lha`: no request ever
returns an HTTP error at all, and in particular a preflight block
comes back as a 200 body whose stderr is the stringified
`HTTPException` — so only the `success` flag in the body, never the
status code, reflects the outcome there. -/
theorem endpoint_status_vs_preflight (env : Env) (tables : TablesFile)
    (rk : Option String) (runner : RunCall → Except Unit ScriptResponse) :
    (∀ issues, run_preflight env tables true = .ok issues → issues ≠ [] →
        process_locations env tables rk runner
          = .http 400 (joinWith "; " issues)
        ∧ reprocess_locations env tables rk runner
          = .http 400 (joinWith "; " issues))
    ∧ (∀ es, tables = TablesFile.jsonDict es →
        run_preflight env tables true = .ok [] →
        ((∀ d, resolve_selection es rk = .error d →
            process_locations env tables rk runner = .http 400 d
            ∧ reprocess_locations env tables rk runner = .http 400 d)
        ∧ (∀ call, process_plan env tables rk = .ok call →
            ((∀ r, runner call = .ok r →
                process_locations env tables rk runner = .body r)
            ∧ (runner call = .error () →
                process_locations env tables rk runner
                  = .body (notFoundResponse "process_new_locations.py"))))
        ∧ (∀ call, reprocess_plan env tables rk = .ok call →
            ((∀ r, runner call = .ok r →
                reprocess_locations env tables rk runner = .body r)
            ∧ (runner call = .error () →
                reprocess_locations env tables rk runner
                  = .body (notFoundResponse "process_new_locations.py"))))))
    ∧ (∀ s d, fetch_facilities env tables runner ≠ .http s d
        ∧ backfill_facilities env tables runner ≠ .http s d
        ∧ generate_lha env tables runner ≠ .http s d)
    ∧ (∀ issues, run_preflight env tables true = .ok issues → issues ≠ [] →
        fetch_facilities env tables runner
          = .body (genericFailureResponse "HTTPException"
              (toString 400 ++ ": " ++ joinWith "; " issues))
        ∧ backfill_facilities env tables runner
          = .body (genericFailureResponse "HTTPException"
              (toString 400 ++ ": " ++ joinWith "; " issues))
        ∧ generate_lha env tables runner
          = .body (genericFailureResponse "HTTPException"
              (toString 400 ++ ": " ++ joinWith "; " issues))) := by
  refine ⟨?_, ?_, ?_, ?_⟩
  · intro issues hp hne
    have hie : issues.isEmpty = false := by
      cases issues with
      | nil => exact absurd rfl hne
      | cons a l => rfl
    constructor
    · unfold process_locations process_plan
      rw [hp]
      simp [hie, handleExc]
    · unfold reprocess_locations reprocess_plan
      rw [hp]
      simp [hie, handleExc]
  · intro es hes hp
    subst hes
    obtain ⟨-, hload⟩ := preflight_ok_load_table_map hp
    refine ⟨?_, ?_, ?_⟩
    · intro d hd
      constructor
      · unfold process_locations process_plan
        rw [hp]
        simp [hload, hd, handleExc]
      · unfold reprocess_locations reprocess_plan
        rw [hp]
        simp [hload, hd, handleExc]
    · intro call hc
      constructor
      · intro r hr
        unfold process_locations
        rw [hc]
        simp [hr]
      · intro hr
        unfold process_locations
        rw [hc]
        simp [hr]
    · intro call hc
      constructor
      · intro r hr
        unfold reprocess_locations
        rw [hc]
        simp [hr]
      · intro hr
        unfold reprocess_locations
        rw [hc]
        simp [hr]
  · intro s d
    refine ⟨?_, ?_, ?_⟩
    · unfold fetch_facilities
      split
      · exact handleExcNoReraise_ne_http _ _ _ _
      · split
        · split <;> simp
        · exact handleExcNoReraise_ne_http _ _ _ _
    · unfold backfill_facilities
      split
      · exact handleExcNoReraise_ne_http _ _ _ _
      · split
        · split <;> simp
        · exact handleExcNoReraise_ne_http _ _ _ _
    · unfold generate_lha
      split
      · exact handleExcNoReraise_ne_http _ _ _ _
      · split
        · split <;> simp
        · exact handleExcNoReraise_ne_http _ _ _ _
  · intro issues hp hne
    have hie : issues.isEmpty = false := by
      cases issues with
      | nil => exact absurd rfl hne
      | cons a l => rfl
    refine ⟨?_, ?_, ?_⟩
    · unfold fetch_facilities
      rw [hp]
      simp [hie, handleExcNoReraise]
    · unfold backfill_facilities
      rw [hp]
      simp [hie, handleExcNoReraise]
    · unfold generate_lha
      rw [hp]
      simp [hie, handleExcNoReraise]

/-- Witness for C6 amended: a missing token plus missing map blocks
both dataset endpoints with the semicolon-joined issue string. -/
theorem endpoint_status_vs_preflight_witness :
    process_locations ⟨none, some "g", some "p", some "l", some "m"⟩
        TablesFile.missing none (fun _ => .error ())
      = .http 400 (joinWith "; "
          ["Missing NOTION_TOKEN in .env.",
           "notion_tables.json is missing; run sync_prod_tables."])
    ∧ reprocess_locations ⟨none, some "g", some "p", some "l", some "m"⟩
        TablesFile.missing none (fun _ => .error ())
      = .http 400 (joinWith "; "
          ["Missing NOTION_TOKEN in .env.",
           "notion_tables.json is missing; run sync_prod_tables."]) :=
  (endpoint_status_vs_preflight ⟨none, some "g", some "p", some "l", some "m"⟩
      TablesFile.missing none (fun _ => .error ())).1
    ["Missing NOTION_TOKEN in .env.",
     "notion_tables.json is missing; run sync_prod_tables."]
    (by decide) (by decide)

/-! ## C10 -/

/-- C10: only `/api/lha` rewrites script output: when the script result
has `success = false` and its stderr mentions `EOFError`, the stderr
returned to the caller is replaced by the fixed guidance message while
`success`, `returncode` and `stdout` are unchanged; otherwise the
result passes through untouched; the process, reprocess, facilities
and backfill endpoints always return the runner's result unchanged. -/
theorem generate_lha_eoferror_rewrite (env : Env) (tables : TablesFile)
    (runner : RunCall → Except Unit ScriptResponse) (r : ScriptResponse)
    (hpre : run_preflight env tables true = .ok [])
    (hr : runner ⟨"generate_lha_forms.py", [], some "m\n"⟩ = .ok r) :
    ((!r.success && pyTruthy r.stderr
        && strContains (r.stderr.getD "") "EOFError") = true →
      generate_lha env tables runner
        = .body { success := r.success, returncode := r.returncode,
                  stdout := r.stdout, stderr := some lhaGuidance })
    ∧ ((!r.success && pyTruthy r.stderr
        && strContains (r.stderr.getD "") "EOFError") = false →
      generate_lha env tables runner = .body r)
    ∧ (∀ env₂ tables₂ key call runner₂ r₂,
        process_plan env₂ tables₂ key = .ok call → runner₂ call = .ok r₂ →
        process_locations env₂ tables₂ key runner₂ = .body r₂)
    ∧ (∀ env₂ tables₂ key call runner₂ r₂,
        reprocess_plan env₂ tables₂ key = .ok call → runner₂ call = .ok r₂ →
        reprocess_locations env₂ tables₂ key runner₂ = .body r₂)
    ∧ (∀ env₂ tables₂ runner₂ r₂, run_preflight env₂ tables₂ true = .ok [] →
        runner₂ ⟨"fetch_medical_facilities.py", ["--dry-run"], none⟩ = .ok r₂ →
        fetch_facilities env₂ tables₂ runner₂ = .body r₂)
    ∧ (∀ env₂ tables₂ runner₂ r₂, run_preflight env₂ tables₂ true = .ok [] →
        runner₂ ⟨"fetch_medical_facilities.py",
                 ["--dry-run", "--backfill-existing"], none⟩ = .ok r₂ →
        backfill_facilities env₂ tables₂ runner₂ = .body r₂) := by
  refine ⟨?_, ?_, ?_, ?_, ?_, ?_⟩
  · intro hcond
    unfold generate_lha
    rw [hpre]
    simp only [List.isEmpty_nil, if_true]
    simp only [hr]
    unfold lha_post
    rw [if_pos hcond]
  · intro hcond
    unfold generate_lha
    rw [hpre]
    simp only [List.isEmpty_nil, if_true]
    simp only [hr]
    unfold lha_post
    rw [if_neg (by rw [hcond]; exact Bool.false_ne_true)]
  · intro env₂ tables₂ key call runner₂ r₂ hc hr₂
    unfold process_locations
    rw [hc]
    simp [hr₂]
  · intro env₂ tables₂ key call runner₂ r₂ hc hr₂
    unfold reprocess_locations
    rw [hc]
    simp [hr₂]
  · intro env₂ tables₂ runner₂ r₂ hp₂ hr₂
    unfold fetch_facilities
    rw [hp₂]
    simp [hr₂]
  · intro env₂ tables₂ runner₂ r₂ hp₂ hr₂
    unfold backfill_facilities
    rw [hp₂]
    simp [hr₂]

/-- Witness for C10: a failing LHA run whose stderr mentions
`EOFError` comes back with the guidance message and unchanged
success/returncode. -/
theorem generate_lha_eoferror_rewrite_witness :
    generate_lha ⟨some "t", some "g", some "p", some "l", some "m"⟩
        (.jsonDict [("A", "x")])
        (fun _ => .ok ⟨false, 1, none, some "EOFError: hit"⟩)
      = .body { success := false, returncode := 1,
                stdout := none, stderr := some lhaGuidance } :=
  (generate_lha_eoferror_rewrite
      ⟨some "t", some "g", some "p", some "l", some "m"⟩
      (.jsonDict [("A", "x")])
      (fun _ => .ok ⟨false, 1, none, some "EOFError: hit"⟩)
      ⟨false, 1, none, some "EOFError: hit"⟩
      (by decide) rfl).1 (by decide)

end ATLS
